import Mathlib

/-!
Shallow embedding of the authenticated request pipeline of
FilamentSeek/filamentseek-web: `src/session.rs`, `src/request.rs`,
`src/logout.rs`.

Modelling choices:
* Browser `LocalStorage` becomes a total function from keys to optional
  stored values.  A stored value is either a well-formed JSON-encoded
  `Session` record (constructor `sessionVal`) or any other string
  (constructor `rawVal`, standing for data that does not deserialize as a
  `Session`).
* The network is an oracle: each `send` in the code draws its outcome
  (build failure, network failure, or an HTTP response together with the
  parse results of its body) from an environment value supplied to the
  function.  This mirrors exactly which branches the Rust code can take.
* Machine integers: HTTP statuses are `u16` in the source and are modelled
  as `Nat`; no arithmetic is performed on them, so no overflow arises.
-/

set_option autoImplicit false

/-- `ErrorResponse` from `src/request.rs` lines 13-16. -/
structure ErrorResponse where
  message : String
  status : Nat
deriving DecidableEq, Repr

/-- `TokenResponse` from `src/request.rs` lines 23-27. -/
structure TokenResponse where
  access_token : String
  refresh_token : String
deriving DecidableEq, Repr

/-- `Session` from `src/session.rs` lines 9-17. -/
structure Session where
  uuid : String
  username : String
  email : String
  is_admin : Bool
  access_token : String
  refresh_token : String
deriving DecidableEq, Repr

/-- A value held under one `LocalStorage` key: either a well-formed
JSON-encoded `Session`, or any other string (which fails to deserialize as
a `Session`). -/
inductive StoredVal where
  | sessionVal (s : Session)
  | rawVal (v : String)
deriving DecidableEq, Repr

/-- Browser `LocalStorage`: a key-value map. -/
def Storage : Type := String → Option StoredVal

/-- `LocalStorage::set` for a given key. -/
def Storage.set (st : Storage) (k : String) (v : StoredVal) : Storage :=
  fun k2 => if k2 = k then some v else st k2

/-- `LocalStorage::delete` for a given key. -/
def Storage.delete (st : Storage) (k : String) : Storage :=
  fun k2 => if k2 = k then none else st k2

/-- `SESSION_KEY` from `src/session.rs` line 7. -/
def SESSION_KEY : String := "session_v1"

/-- `Session::save` (`src/session.rs` lines 20-22): `LocalStorage::set(SESSION_KEY, self)`.
In the model the write always succeeds. -/
def Session.save (s : Session) (st : Storage) : Storage :=
  Storage.set st SESSION_KEY (StoredVal.sessionVal s)

/-- `Session::load` (`src/session.rs` lines 24-26): `LocalStorage::get(SESSION_KEY).ok()`.
A missing key or a value that does not deserialize as a `Session` both
yield `none`. -/
def Session.load (st : Storage) : Option Session :=
  match st SESSION_KEY with
  | some (StoredVal.sessionVal s) => some s
  | _ => none

/-- `Session::clear` (`src/session.rs` lines 28-30): `LocalStorage::delete(SESSION_KEY)`. -/
def Session.clear (st : Storage) : Storage :=
  Storage.delete st SESSION_KEY

/-- `Session::is_logged_in` (`src/session.rs` lines 32-34). -/
def Session.is_logged_in (st : Storage) : Bool :=
  (Session.load st).isSome

/-- The click handler of `LogoutButton` (`src/logout.rs` lines 11-22): it
deletes the keys `"username"`, `"access_token"` and `"refresh_token"` from
`LocalStorage` and redirects to `"/"`.  (It does not touch `SESSION_KEY`.)
Returns the storage after the three deletes together with the redirect
target. -/
def LogoutButton_click (st : Storage) : Storage × String :=
  let st1 := Storage.delete st "username"
  let st2 := Storage.delete st1 "access_token"
  let st3 := Storage.delete st2 "refresh_token"
  (st3, "/")

/-- `Auth` from `src/request.rs` lines 6-11. -/
inductive Auth where
  | Authorized
  | Unauthorized
  | Ephemeral (access_token : String)
deriving DecidableEq, Repr

/-- `resp.ok()` of `gloo_net`, which follows the browser `Response.ok`:
true exactly for statuses 200-299. -/
def respOk (status : Nat) : Bool :=
  200 ≤ status && status ≤ 299

/-- Network oracle for one `send` inside `send_once`
(`src/request.rs` lines 68-105).  Each constructor names the point at
which the code's fallible steps resolve:
* `buildError msg` — `req.json(&body)` (body present) or `req.build()`
  (body absent) fails with message `msg`;
* `networkError msg` — `req.send().await` fails with message `msg`;
* `httpResponse status parseBody parseError` — a response arrives with
  the given status; `parseBody` is the outcome of `resp.json::<R>()` and
  `parseError` the outcome of `resp.json::<GenericError>()` (already
  projected to its `error` field). -/
inductive SendOutcome (R : Type) where
  | buildError (msg : String)
  | networkError (msg : String)
  | httpResponse (status : Nat) (parseBody : Except String R)
      (parseError : Except String String)

/-- Network oracle for the token-exchange POST inside
`refresh_access_token` (`src/request.rs` lines 158-189); `parseToken` is
the outcome of `response.json::<TokenResponse>()`. -/
inductive RefreshOutcome where
  | buildError (msg : String)
  | networkError (msg : String)
  | httpResponse (status : Nat) (parseToken : Except String TokenResponse)
      (parseError : Except String String)

/-- Oracles for one whole `request_json` invocation: the first send, the
token refresh (used only on the 401 path), and the retried send. -/
structure Env (R : Type) where
  first : SendOutcome R
  refresh : RefreshOutcome
  second : SendOutcome R

/-- Result of `send_once` plus whether `req.send()` was reached (i.e. a
request actually went out on the wire). -/
structure SendResult (R : Type) where
  outcome : Except ErrorResponse (Except ErrorResponse R)
  sent : Bool

/-- `send_once` from `src/request.rs` lines 39-106.

The headers are modelled separately by `built_request`; this function
follows the control flow: for `Authorized`, `Session::load` must succeed
(else an outer `status 0` error before anything is sent); then the build,
the send and the response classification resolve per the oracle `o`.
A 2xx body that fails to parse as `R` is an outer error carrying the real
status (the `?` on line 89); a non-2xx response is an inner
`ErrorResponse` whose message comes from the `GenericError` parse. -/
def send_once {R : Type} (auth : Auth) (hasBody : Bool) (store : Storage)
    (o : SendOutcome R) : SendResult R :=
  match auth, Session.load store with
  | Auth.Authorized, none =>
      { outcome := Except.error { message := "No session in storage", status := 0 }
        sent := false }
  | _, _ =>
    match o with
    | SendOutcome.buildError msg =>
        { outcome := Except.error
            { message := (if hasBody then "Bad JSON: " else "Request build error: ") ++ msg
              status := 0 }
          sent := false }
    | SendOutcome.networkError msg =>
        { outcome := Except.error { message := "Network error: " ++ msg, status := 0 }
          sent := true }
    | SendOutcome.httpResponse status parseBody parseError =>
        if respOk status then
          match parseBody with
          | Except.ok r => { outcome := Except.ok (Except.ok r), sent := true }
          | Except.error e =>
              { outcome := Except.error { message := "Bad JSON: " ++ e, status := status }
                sent := true }
        else
          { outcome := Except.ok (Except.error
              (match parseError with
               | Except.ok m => { message := m, status := status }
               | Except.error e => { message := "Bad JSON: " ++ e, status := status }))
            sent := true }

/-- The body sent by `refresh_access_token` (`RefreshBody`,
`src/request.rs` lines 145-156). -/
structure RefreshBody where
  grant_type : String
  username : String
  refresh_token : String
deriving DecidableEq, Repr

/-- `refresh_access_token` from `src/request.rs` lines 139-194.

Requires a stored `Session`; posts a `RefreshBody` to the token endpoint;
classifies the response.  On a 2xx response whose body parses as
`TokenResponse`, the source assigns the new tokens to its **local**
`session` variable (lines 191-192) and returns `Ok(())` without ever
calling `session.save()`, so the returned storage is the input storage
unchanged on every path — the local mutation is modelled by the unused
binding below. -/
def refresh_access_token (o : RefreshOutcome) (store : Storage) :
    Except ErrorResponse Unit × Storage :=
  match Session.load store with
  | none => (Except.error { message := "No session in storage", status := 0 }, store)
  | some session =>
    let _body : RefreshBody :=
      { grant_type := "refresh_token"
        username := session.username
        refresh_token := session.refresh_token }
    match o with
    | RefreshOutcome.buildError msg =>
        (Except.error { message := "Bad JSON: " ++ msg, status := 0 }, store)
    | RefreshOutcome.networkError msg =>
        (Except.error { message := "Network error: " ++ msg, status := 0 }, store)
    | RefreshOutcome.httpResponse status parseToken parseError =>
      if respOk status then
        match parseToken with
        | Except.error e =>
            (Except.error { message := "Bad JSON: " ++ e, status := 0 }, store)
        | Except.ok tr =>
            let _session : Session :=
              { session with access_token := tr.access_token
                             refresh_token := tr.refresh_token }
            (Except.ok (), store)
      else
        (Except.error
          (match parseError with
           | Except.ok m => { message := m, status := status }
           | Except.error e => { message := "Bad JSON: " ++ e, status := status }), store)

/-- Everything observable about one `request_json` invocation: the value
returned to the caller, the storage afterwards, the forced navigation (the
`set_href("/login")` on refresh failure), and how many times the refresh
endpoint and the main `send` were invoked. -/
structure CallOutcome (R : Type) where
  result : Except ErrorResponse R
  store : Storage
  redirect : Option String
  refreshCount : Nat
  sendCount : Nat

/-- `request_json` from `src/request.rs` lines 29-137.

First `send_once`; outer errors (`?` on line 108) and successes return at
once.  An inner error with `status == 401` under `Auth::Authorized`
triggers `refresh_access_token`: on refresh failure the session is
cleared, the browser is sent to `"/login"` and the original error is
returned; on refresh success the request is resent once, a retry success
is returned, a retry inner error is replaced by the original error
(line 132), and a retry outer error propagates (`?` on line 130). -/
def request_json {R : Type} (auth : Auth) (hasBody : Bool) (env : Env R)
    (store : Storage) : CallOutcome R :=
  let s1 := send_once auth hasBody store env.first
  let n1 : Nat := if s1.sent then 1 else 0
  match s1.outcome with
  | Except.error e =>
      { result := Except.error e, store := store, redirect := none
        refreshCount := 0, sendCount := n1 }
  | Except.ok (Except.ok v) =>
      { result := Except.ok v, store := store, redirect := none
        refreshCount := 0, sendCount := n1 }
  | Except.ok (Except.error err) =>
    if err.status = 401 ∧ auth = Auth.Authorized then
      match refresh_access_token env.refresh store with
      | (Except.error _, store1) =>
          { result := Except.error err, store := Session.clear store1
            redirect := some "/login", refreshCount := 1, sendCount := n1 }
      | (Except.ok (), store1) =>
        let s2 := send_once auth hasBody store1 env.second
        let n2 : Nat := n1 + (if s2.sent then 1 else 0)
        match s2.outcome with
        | Except.error e =>
            { result := Except.error e, store := store1, redirect := none
              refreshCount := 1, sendCount := n2 }
        | Except.ok (Except.ok v) =>
            { result := Except.ok v, store := store1, redirect := none
              refreshCount := 1, sendCount := n2 }
        | Except.ok (Except.error _) =>
            { result := Except.error err, store := store1, redirect := none
              refreshCount := 1, sendCount := n2 }
    else
      { result := Except.error err, store := store, redirect := none
        refreshCount := 0, sendCount := n1 }

/-- Flattening of `send_once`'s nested result: the classified result a
lone send surfaces to the caller of `request_json`. -/
def flattenOutcome {R : Type} :
    Except ErrorResponse (Except ErrorResponse R) → Except ErrorResponse R
  | Except.error e => Except.error e
  | Except.ok (Except.ok v) => Except.ok v
  | Except.ok (Except.error e) => Except.error e

/-- `UserResponse` from `src/session.rs` lines 37-43. -/
structure UserResponse where
  uuid : String
  username : String
  email : String
  is_admin : Bool
deriving DecidableEq, Repr

/-- `Session::log_in` from `src/session.rs` lines 36-70: an `Ephemeral`
GET of `users/me` with no body; on error, return `"<status>: <message>"`;
on success, assemble the `Session` and save it.  (As in `Session.save`,
the storage write always succeeds in the model.) -/
def Session.log_in (access_token refresh_token : String)
    (env : Env UserResponse) (store : Storage) : Except String Session × Storage :=
  let c := request_json (Auth.Ephemeral access_token) false env store
  match c.result with
  | Except.error err =>
      (Except.error (toString err.status ++ ": " ++ err.message), c.store)
  | Except.ok u =>
      let session : Session :=
        { uuid := u.uuid, username := u.username, email := u.email
          is_admin := u.is_admin, access_token := access_token
          refresh_token := refresh_token }
      (Except.ok session, Session.save session c.store)

/-- The request constructed by `send_once` (`src/request.rs` lines 49-78):
its headers and whether a body is attached. -/
structure BuiltRequest where
  headers : List (String × String)
  hasBody : Bool
deriving DecidableEq, Repr

/-- Header construction of `send_once` (`src/request.rs` lines 49-78):
line 51 sets `Content-Type: application/json` before the `auth` match and
before the body branch, so it is present on every request; `Authorization`
is added per `auth`; `none` when `Authorized` finds no session.  (With a
body, `req.json` re-sets the same `Content-Type` value, a no-op.) -/
def built_request (auth : Auth) (store : Storage) (hasBody : Bool) :
    Option BuiltRequest :=
  let ct : String × String := ("Content-Type", "application/json")
  match auth with
  | Auth.Authorized =>
    match Session.load store with
    | none => none
    | some s =>
        some { headers := [ct, ("Authorization", "Bearer " ++ s.access_token)]
               hasBody := hasBody }
  | Auth.Ephemeral t =>
      some { headers := [ct, ("Authorization", "Bearer " ++ t)], hasBody := hasBody }
  | Auth.Unauthorized => some { headers := [ct], hasBody := hasBody }

/-! Concrete fixtures used by witnesses and counterexamples. -/

def emptyStore : Storage := fun _ => none

def sampleSession : Session :=
  { uuid := "u-1", username := "alice", email := "alice@example.com"
    is_admin := false, access_token := "A1", refresh_token := "R1" }

def sampleStore : Storage := Session.save sampleSession emptyStore

/-- Token endpoint answers 200 with a parsable `{A2, R2}` pair. -/
def refreshOkOutcome : RefreshOutcome :=
  RefreshOutcome.httpResponse 200
    (Except.ok { access_token := "A2", refresh_token := "R2" })
    (Except.error "not an error body")

/-- Token endpoint answers 400 `invalid_grant`. -/
def refreshFailOutcome : RefreshOutcome :=
  RefreshOutcome.httpResponse 400 (Except.error "not a token body")
    (Except.ok "invalid_grant")

/-- A 401 response whose error body parses as `{error: "expired"}`. -/
def outcome401 {R : Type} : SendOutcome R :=
  SendOutcome.httpResponse 401 (Except.error "not the success shape")
    (Except.ok "expired")

/-! General facts about the embedding, shared by several claim proofs. -/

theorem load_save (s : Session) (st : Storage) :
    Session.load (Session.save s st) = some s := by
  simp [Session.load, Session.save, Storage.set]

theorem load_clear (st : Storage) :
    Session.load (Session.clear st) = none := by
  simp [Session.load, Session.clear, Storage.delete]

theorem refresh_access_token_store_eq (o : RefreshOutcome) (store : Storage) :
    (refresh_access_token o store).2 = store := by
  unfold refresh_access_token
  rcases h : Session.load store with _ | s <;> simp only
  cases o with
  | buildError msg => rfl
  | networkError msg => rfl
  | httpResponse status pt pe =>
      simp only
      split
      · cases pt <;> rfl
      · rfl

/-! ## C9 — save/load round trip -/

/-- C9: for every `Session` value `s`, `Session.save s` followed by
`Session.load` yields a `Session` equal to `s` in all six fields (record
equality). -/
theorem c9_save_load_roundtrip (s : Session) (st : Storage) :
    Session.load (Session.save s st) = some s :=
  load_save s st

/-! ## C1 — refresh success is supposed to persist the new tokens -/

/-- C1 (code bug): with `sampleSession` (tokens `A1`/`R1`) in storage and
the token endpoint answering 200 with `{A2, R2}`, `refresh_access_token`
returns success yet the storage is unchanged: a subsequent
`Session.load` still yields the old tokens `A1`/`R1`, not `A2`/`R2`
(the source updates only its local `session` copy and never calls
`session.save()`). -/
theorem c1_refresh_success_does_not_persist_tokens :
    (refresh_access_token refreshOkOutcome sampleStore).1 = Except.ok ()
    ∧ Session.load (refresh_access_token refreshOkOutcome sampleStore).2
        = some sampleSession
    ∧ sampleSession.access_token = "A1"
    ∧ sampleSession.refresh_token = "R1"
    ∧ sampleSession.access_token ≠ "A2"
    ∧ sampleSession.refresh_token ≠ "R2" :=
  ⟨rfl, rfl, rfl, rfl, by decide, by decide⟩

/-! ## C2 — logout is supposed to clear the stored session -/

/-- C2 (code bug): clicking the logout button on a storage holding
`sampleSession` under `SESSION_KEY` deletes only the unrelated keys
`"username"`, `"access_token"`, `"refresh_token"` and redirects to `"/"`;
`Session.load` afterwards still returns the session, not `none` as the
claim states. -/
theorem c2_logout_click_leaves_session_stored :
    Session.load (LogoutButton_click sampleStore).1 = some sampleSession
    ∧ (LogoutButton_click sampleStore).2 = "/"
    ∧ some sampleSession ≠ (none : Option Session) :=
  ⟨rfl, rfl, by decide⟩

/-! ## C4 — refresh failure clears the session, redirects, returns the
original error -/

/-- C4: on an `Authorized` call whose first send classifies as an inner
error with status 401, if the token refresh fails then the stored session
is cleared (`Session.load` afterwards is `none`), the forced navigation to
`"/login"` is emitted, and the original 401 error is returned. -/
theorem c4_refresh_failure_clears_session_and_redirects {R : Type}
    (hasBody : Bool) (env : Env R) (store store1 : Storage)
    (err e : ErrorResponse)
    (h1 : (send_once Auth.Authorized hasBody store env.first).outcome
        = Except.ok (Except.error err))
    (h2 : err.status = 401)
    (h3 : refresh_access_token env.refresh store = (Except.error e, store1)) :
    (request_json Auth.Authorized hasBody env store).result = Except.error err
    ∧ Session.load (request_json Auth.Authorized hasBody env store).store = none
    ∧ (request_json Auth.Authorized hasBody env store).redirect = some "/login" := by
  unfold request_json
  simp only [h1, h2, and_self, if_true, eq_self_iff_true, h3, load_clear]

/-- Environment for the C4 witness: first send 401, refresh endpoint 400. -/
def envC4 : Env Nat :=
  { first := outcome401, refresh := refreshFailOutcome, second := outcome401 }

/-- Witness for C4 at a concrete input. -/
theorem c4_refresh_failure_witness :
    (request_json Auth.Authorized false envC4 sampleStore).result
        = Except.error { message := "expired", status := 401 }
    ∧ Session.load (request_json Auth.Authorized false envC4 sampleStore).store = none
    ∧ (request_json Auth.Authorized false envC4 sampleStore).redirect
        = some "/login" :=
  c4_refresh_failure_clears_session_and_redirects false envC4 sampleStore sampleStore
    { message := "expired", status := 401 }
    { message := "invalid_grant", status := 400 } rfl rfl rfl

/-! ## C3 — error on the retried request -/

/-- Environment refuting C3 as stated: first send 401, refresh succeeds,
retry fails with a network error. -/
def envC3cex : Env Nat :=
  { first := outcome401, refresh := refreshOkOutcome
    second := SendOutcome.networkError "boom" }

/-- C3 counterexample: the first send classifies as the 401 error
`{expired, 401}`, the refresh succeeds, and the retried request produces
an error (a network failure) — yet `request_json` returns the retry's
error `{Network error: boom, 0}`, not the original 401 error, because the
`?` on line 130 propagates the retry's outer error. -/
theorem c3_counterexample :
    (send_once (R := Nat) Auth.Authorized false sampleStore envC3cex.first).outcome
        = Except.ok (Except.error { message := "expired", status := 401 })
    ∧ refresh_access_token envC3cex.refresh sampleStore = (Except.ok (), sampleStore)
    ∧ (request_json Auth.Authorized false envC3cex sampleStore).result
        = Except.error { message := "Network error: boom", status := 0 }
    ∧ ({ message := "Network error: boom", status := 0 } : ErrorResponse)
        ≠ { message := "expired", status := 401 } :=
  ⟨rfl, rfl, rfl, by decide⟩

/-- C3 amended: if the retried request's **classified HTTP result** is an
error (the inner-error case, i.e. a non-2xx response), the original 401
error is returned; retry failures that surface as outer errors (build,
network, missing session, or a 2xx body that fails to parse) propagate the
retry's own error instead. -/
theorem c3_retry_http_error_returns_original_401 {R : Type}
    (hasBody : Bool) (env : Env R) (store store1 : Storage)
    (err err2 : ErrorResponse)
    (h1 : (send_once Auth.Authorized hasBody store env.first).outcome
        = Except.ok (Except.error err))
    (h2 : err.status = 401)
    (h3 : refresh_access_token env.refresh store = (Except.ok (), store1))
    (h4 : (send_once Auth.Authorized hasBody store1 env.second).outcome
        = Except.ok (Except.error err2)) :
    (request_json Auth.Authorized hasBody env store).result = Except.error err := by
  unfold request_json
  simp only [h1, h2, and_self, if_true, eq_self_iff_true, h3, h4]

/-- Environment for the C3 witness: retry answers 500. -/
def envC3wit : Env Nat :=
  { first := outcome401, refresh := refreshOkOutcome
    second := SendOutcome.httpResponse 500 (Except.error "not the success shape")
        (Except.ok "server exploded") }

/-- Witness for the amended C3 at a concrete input. -/
theorem c3_retry_http_error_witness :
    (request_json Auth.Authorized false envC3wit sampleStore).result
        = Except.error { message := "expired", status := 401 } :=
  c3_retry_http_error_returns_original_401 false envC3wit sampleStore sampleStore
    { message := "expired", status := 401 }
    { message := "server exploded", status := 500 } rfl rfl rfl rfl

/-- When the 401-under-`Authorized` condition cannot fire, `request_json`
is the first send alone: no refresh, no retry, storage and navigation
untouched. -/
theorem request_json_no_recovery {R : Type}
    (auth : Auth) (hasBody : Bool) (env : Env R) (store : Storage)
    (hc : ∀ err : ErrorResponse,
        (send_once auth hasBody store env.first).outcome
            = Except.ok (Except.error err) →
        ¬(err.status = 401 ∧ auth = Auth.Authorized)) :
    request_json auth hasBody env store =
      { result := flattenOutcome (send_once auth hasBody store env.first).outcome
        store := store, redirect := none, refreshCount := 0
        sendCount := if (send_once auth hasBody store env.first).sent then 1 else 0 } := by
  unfold request_json
  rcases ho : (send_once auth hasBody store env.first).outcome with e | iv
  · simp only [ho, flattenOutcome]
  · cases iv with
    | ok v => simp only [ho, flattenOutcome]
    | error err =>
        simp only [ho, flattenOutcome]
        rw [if_neg (hc err ho)]

/-! ## C6 — no recovery outside the Authorized-401 case -/

/-- Environment refuting the "exactly one request is sent" half of C6:
the body fails to serialize, so the call fails before anything goes out on
the wire. -/
def envC6cex : Env Nat :=
  { first := SendOutcome.buildError "recursion limit exceeded"
    refresh := refreshOkOutcome, second := outcome401 }

/-- C6 counterexample: an `Unauthorized` call whose body serialization
fails performs no refresh and returns the classified error, but the
number of requests sent is 0, not "exactly one" as the claim states. -/
theorem c6_counterexample :
    (request_json Auth.Unauthorized true envC6cex emptyStore).refreshCount = 0
    ∧ (request_json Auth.Unauthorized true envC6cex emptyStore).result
        = Except.error
            { message := "Bad JSON: recursion limit exceeded", status := 0 }
    ∧ (request_json Auth.Unauthorized true envC6cex emptyStore).sendCount = 0
    ∧ (0 : Nat) ≠ 1 :=
  ⟨rfl, rfl, rfl, by decide⟩

/-- C6 amended: for every call with auth mode `Unauthorized` or
`Ephemeral`, and for every `Authorized` call whose classified result is
never a 401 inner error, no refresh and no retry occurs, **at most** one
request is sent (exactly one whenever the send is reached; a missing
session or a body-serialization failure sends nothing), and the first
send's classified result is returned unmodified, with storage and
navigation untouched. -/
theorem c6_no_refresh_no_retry {R : Type}
    (auth : Auth) (hasBody : Bool) (env : Env R) (store : Storage)
    (h : auth = Auth.Unauthorized ∨ (∃ t, auth = Auth.Ephemeral t)
        ∨ ∀ err : ErrorResponse,
            (send_once auth hasBody store env.first).outcome
                = Except.ok (Except.error err) → err.status ≠ 401) :
    (request_json auth hasBody env store).refreshCount = 0
    ∧ (request_json auth hasBody env store).sendCount ≤ 1
    ∧ (request_json auth hasBody env store).result
        = flattenOutcome (send_once auth hasBody store env.first).outcome
    ∧ (request_json auth hasBody env store).store = store
    ∧ (request_json auth hasBody env store).redirect = none := by
  have hc : ∀ err : ErrorResponse,
      (send_once auth hasBody store env.first).outcome
          = Except.ok (Except.error err) →
      ¬(err.status = 401 ∧ auth = Auth.Authorized) := by
    intro err herr hand
    rcases h with h | ⟨t, h⟩ | h
    · rw [h] at hand; cases hand.2
    · rw [h] at hand; cases hand.2
    · exact h err herr hand.1
  rw [request_json_no_recovery auth hasBody env store hc]
  refine ⟨rfl, ?_, rfl, rfl, rfl⟩
  split <;> simp

/-- Witness for the amended C6 at a concrete input: an `Ephemeral` call
answered 403. -/
theorem c6_no_refresh_no_retry_witness :
    (request_json (Auth.Ephemeral "T") false
        (Env.mk (SendOutcome.httpResponse 403
            (Except.error "not the success shape") (Except.ok "forbidden"))
          refreshOkOutcome (outcome401 (R := Nat))) emptyStore).refreshCount = 0
    ∧ (request_json (Auth.Ephemeral "T") false
        (Env.mk (SendOutcome.httpResponse 403
            (Except.error "not the success shape") (Except.ok "forbidden"))
          refreshOkOutcome (outcome401 (R := Nat))) emptyStore).sendCount ≤ 1
    ∧ (request_json (Auth.Ephemeral "T") false
        (Env.mk (SendOutcome.httpResponse 403
            (Except.error "not the success shape") (Except.ok "forbidden"))
          refreshOkOutcome (outcome401 (R := Nat))) emptyStore).result
        = flattenOutcome (send_once (Auth.Ephemeral "T") false emptyStore
            (SendOutcome.httpResponse 403
              (Except.error "not the success shape") (Except.ok "forbidden"))).outcome
    ∧ (request_json (Auth.Ephemeral "T") false
        (Env.mk (SendOutcome.httpResponse 403
            (Except.error "not the success shape") (Except.ok "forbidden"))
          refreshOkOutcome (outcome401 (R := Nat))) emptyStore).store = emptyStore
    ∧ (request_json (Auth.Ephemeral "T") false
        (Env.mk (SendOutcome.httpResponse 403
            (Except.error "not the success shape") (Except.ok "forbidden"))
          refreshOkOutcome (outcome401 (R := Nat))) emptyStore).redirect = none :=
  c6_no_refresh_no_retry (Auth.Ephemeral "T") false
    (Env.mk (SendOutcome.httpResponse 403
        (Except.error "not the success shape") (Except.ok "forbidden"))
      refreshOkOutcome (outcome401 (R := Nat))) emptyStore
    (Or.inr (Or.inl ⟨"T", rfl⟩))

/-! ## C7 — at most one refresh and one retry per call -/

/-- C7: in every single `request_json` invocation, at most one token
refresh and at most two sends (the initial one plus at most one retry)
occur, and an `Authorized` call whose first send classifies as a 401
inner error triggers exactly one refresh attempt; the straight-line
recovery cannot loop, so a 401 on the retried request triggers nothing
further. -/
theorem c7_at_most_one_refresh_and_one_retry {R : Type}
    (auth : Auth) (hasBody : Bool) (env : Env R) (store : Storage) :
    (request_json auth hasBody env store).refreshCount ≤ 1
    ∧ (request_json auth hasBody env store).sendCount ≤ 2
    ∧ ∀ err : ErrorResponse,
        (send_once auth hasBody store env.first).outcome
            = Except.ok (Except.error err) →
        err.status = 401 → auth = Auth.Authorized →
        (request_json auth hasBody env store).refreshCount = 1 := by
  unfold request_json
  rcases ho : (send_once auth hasBody store env.first).outcome with e | iv
  · simp only [ho]
    refine ⟨Nat.zero_le _, ?_, ?_⟩
    · split <;> simp
    · intro err herr
      exact Except.noConfusion herr
  · cases iv with
    | ok v =>
        simp only [ho]
        refine ⟨Nat.zero_le _, ?_, ?_⟩
        · split <;> simp
        · intro err herr
          injection herr with h
          exact Except.noConfusion h
    | error err =>
        simp only [ho]
        by_cases hif : err.status = 401 ∧ auth = Auth.Authorized
        · rw [if_pos hif]
          rcases hr : refresh_access_token env.refresh store with ⟨r, store1⟩
          cases r with
          | error e =>
              simp only [hr]
              refine ⟨Nat.le_refl 1, ?_, ?_⟩
              · split <;> simp
              · intro _ _ _ _
                trivial
          | ok u =>
              cases u
              simp only [hr]
              rcases ho2 : (send_once auth hasBody store1 env.second).outcome
                  with e2 | iv2
              · simp only [ho2]
                refine ⟨Nat.le_refl 1, ?_, ?_⟩
                · split <;> split <;> simp
                · intro _ _ _ _
                  trivial
              · cases iv2 with
                | ok v2 =>
                    simp only [ho2]
                    refine ⟨Nat.le_refl 1, ?_, ?_⟩
                    · split <;> split <;> simp
                    · intro _ _ _ _
                      trivial
                | error err2 =>
                    simp only [ho2]
                    refine ⟨Nat.le_refl 1, ?_, ?_⟩
                    · split <;> split <;> simp
                    · intro _ _ _ _
                      trivial
        · rw [if_neg hif]
          refine ⟨Nat.zero_le _, ?_, ?_⟩
          · split <;> simp
          · intro err2 herr2 h401 hauth
            injection herr2 with h
            injection h with h2
            subst h2
            exact absurd ⟨h401, hauth⟩ hif

/-- Witness for C7 at a concrete input (the C3 counterexample
environment: 401, refresh succeeds, retry fails on the network). -/
theorem c7_at_most_one_refresh_witness :
    (request_json Auth.Authorized false envC3cex sampleStore).refreshCount ≤ 1
    ∧ (request_json Auth.Authorized false envC3cex sampleStore).sendCount ≤ 2
    ∧ ∀ err : ErrorResponse,
        (send_once Auth.Authorized false sampleStore envC3cex.first).outcome
            = Except.ok (Except.error err) →
        err.status = 401 → Auth.Authorized = Auth.Authorized →
        (request_json Auth.Authorized false envC3cex sampleStore).refreshCount = 1 :=
  c7_at_most_one_refresh_and_one_retry Auth.Authorized false envC3cex sampleStore

/-! ## C5 — the Content-Type header -/

/-- C5 counterexample: a bodiless `Unauthorized` request still carries
`Content-Type: application/json` (line 51 sets it before the body
branch), refuting "no Content-Type header when the body is absent". -/
theorem c5_counterexample :
    (built_request Auth.Unauthorized emptyStore false).map BuiltRequest.hasBody
        = some false
    ∧ (built_request Auth.Unauthorized emptyStore false).map
        (fun r => decide (("Content-Type", "application/json") ∈ r.headers))
        = some true :=
  ⟨rfl, rfl⟩

/-- C5 amended: every request constructed by `send_once` carries
`Content-Type: application/json`, whether or not a body is present (the
body is attached exactly when the `body` argument is present, but the
header does not depend on it). -/
theorem c5_content_type_always_present (auth : Auth) (store : Storage)
    (hasBody : Bool) (r : BuiltRequest)
    (h : built_request auth store hasBody = some r) :
    ("Content-Type", "application/json") ∈ r.headers ∧ r.hasBody = hasBody := by
  cases auth with
  | Authorized =>
      unfold built_request at h
      rcases hl : Session.load store with _ | s
      · rw [hl] at h
        cases h
      · rw [hl] at h
        injection h with h
        subst h
        exact ⟨by simp, rfl⟩
  | Unauthorized =>
      unfold built_request at h
      injection h with h
      subst h
      exact ⟨by simp, rfl⟩
  | Ephemeral t =>
      unfold built_request at h
      injection h with h
      subst h
      exact ⟨by simp, rfl⟩

/-- Witness for the amended C5 at a concrete input. -/
theorem c5_content_type_witness :
    ("Content-Type", "application/json")
        ∈ (BuiltRequest.mk
            [("Content-Type", "application/json"), ("Authorization", "Bearer T")]
            true).headers
    ∧ (BuiltRequest.mk
        [("Content-Type", "application/json"), ("Authorization", "Bearer T")]
        true).hasBody = true :=
  c5_content_type_always_present (Auth.Ephemeral "T") emptyStore true
    (BuiltRequest.mk
      [("Content-Type", "application/json"), ("Authorization", "Bearer T")] true)
    rfl

/-! ## C8 — login is atomic on profile-fetch failure -/

/-- C8: whenever the `Ephemeral` profile fetch inside `Session.log_in`
returns an error, `log_in` returns the error formatted as
`"<status>: <message>"` and the storage is returned unchanged — no
session is persisted on this failure path. -/
theorem c8_login_failure_is_atomic (access_token refresh_token : String)
    (env : Env UserResponse) (store : Storage) (err : ErrorResponse)
    (h : (request_json (Auth.Ephemeral access_token) false env store).result
        = Except.error err) :
    Session.log_in access_token refresh_token env store
      = (Except.error (toString err.status ++ ": " ++ err.message), store) := by
  have hst : (request_json (Auth.Ephemeral access_token) false env store).store
      = store := by
    rw [request_json_no_recovery (Auth.Ephemeral access_token) false env store
      (fun e2 herr hand => by cases hand.2)]
  unfold Session.log_in
  simp only [h, hst]

/-- Environment for the C8 witness: profile endpoint answers 403. -/
def envC8 : Env UserResponse :=
  { first := SendOutcome.httpResponse 403 (Except.error "not a user body")
      (Except.ok "forbidden")
    refresh := refreshOkOutcome
    second := SendOutcome.httpResponse 403 (Except.error "not a user body")
      (Except.ok "forbidden") }

/-- Witness for C8 at a concrete input. -/
theorem c8_login_failure_witness :
    Session.log_in "T" "RT" envC8 emptyStore
      = (Except.error (toString (403 : Nat) ++ ": " ++ "forbidden"), emptyStore) :=
  c8_login_failure_is_atomic "T" "RT" envC8 emptyStore
    { message := "forbidden", status := 403 } rfl

/-! ## C10 — status 0 on a 2xx refresh body that fails to parse -/

/-- C10: if the token endpoint answers 2xx but the body fails to parse as
`TokenResponse`, `refresh_access_token` returns an error with the
status-0 sentinel (not the real 2xx status) and the storage unchanged;
by contrast, `send_once`'s 2xx parse-failure error carries the real HTTP
status. -/
theorem c10_refresh_bad_json_uses_status_zero {R : Type}
    (hasBody : Bool) (store : Storage) (sess : Session) (status : Nat)
    (e1 e2 : String) (p1 p2 : Except String String)
    (h1 : Session.load store = some sess)
    (h2 : respOk status = true) :
    refresh_access_token
        (RefreshOutcome.httpResponse status (Except.error e1) p1) store
      = (Except.error { message := "Bad JSON: " ++ e1, status := 0 }, store)
    ∧ (send_once (R := R) Auth.Authorized hasBody store
        (SendOutcome.httpResponse status (Except.error e2) p2)).outcome
      = Except.error { message := "Bad JSON: " ++ e2, status := status } := by
  constructor
  · unfold refresh_access_token
    simp only [h1, h2, if_true]
  · unfold send_once
    simp only [h1, h2, if_true]

/-- Witness for C10 at a concrete input. -/
theorem c10_refresh_bad_json_witness :
    refresh_access_token
        (RefreshOutcome.httpResponse 200 (Except.error "truncated") (Except.ok "x"))
        sampleStore
      = (Except.error { message := "Bad JSON: " ++ "truncated", status := 0 },
          sampleStore)
    ∧ (send_once (R := Nat) Auth.Authorized false sampleStore
        (SendOutcome.httpResponse 200 (Except.error "mangled") (Except.ok "y"))).outcome
      = Except.error { message := "Bad JSON: " ++ "mangled", status := 200 } :=
  c10_refresh_bad_json_uses_status_zero false sampleStore sampleSession 200
    "truncated" "mangled" (Except.ok "x") (Except.ok "y") rfl rfl
